import Mathlib

/-
Verification of the runbuncalc matchup core against its specification.

The repository has two near-duplicate implementations of the same logic:
`graphql_server.js` (the GraphQL resolver) and `cli_calc.js` (the CLI
entry point).  Both are embedded below; where they differ the two
embeddings differ in exactly the same way the two source files do.

Modelling conventions:
- JavaScript `x || d` on numbers and strings is truthiness-based
  (`0`, `""`, `undefined` pick the default); the `jsOr...` helpers below
  reproduce that.  An `Option` value of `none` models a JS `undefined`
  field.
- Object spread `\x7b ...a, ...b \x7d` over the six-stat records is
  modelled by `mergeStats`: a field present on the right wins.
- The word-boundary regular expression `new RegExp ("\\b" ++ t ++ "\\b", "i")`
  is modelled, for a metacharacter-free `t`, by `wordBoundaryTest`:
  case-insensitive containment of `t` with JS word boundaries
  (a word character is `[A-Za-z0-9_]`) on both ends.  Construction of the
  regex can fail on a syntactically invalid pattern; `regexInvalid`
  models the group-balance fragment of that check (a pattern with
  unbalanced parentheses, an unmatched closing parenthesis, or a
  trailing backslash is rejected by the JS RegExp constructor).
- The damage engine (@smogon/calc) is an external collaborator; it is
  modelled by the record `DirEngine` holding the per-direction closure
  (generation, attacker, defender, field) behind its two fallible entry
  points: the `Move` constructor and `calculate`.
-/

namespace RunBun

/-- Complete six-stat record (all six stats populated). -/
structure Stats where
  hp : Nat
  atk : Nat
  def_ : Nat
  spa : Nat
  spd : Nat
  spe : Nat
deriving DecidableEq

/-- Partial six-stat record; `none` models a key absent from the JS object. -/
structure RawStats where
  hp : Option Nat
  atk : Option Nat
  def_ : Option Nat
  spa : Option Nat
  spd : Option Nat
  spe : Option Nat
deriving DecidableEq

/-- The all-absent partial record (the JS empty object). -/
def emptyRawStats : RawStats := ⟨none, none, none, none, none, none⟩

/-- defaultIVs from both source files. -/
def defaultIVs : Stats := ⟨31, 31, 31, 31, 31, 31⟩

/-- defaultEVs from both source files. -/
def defaultEVs : Stats := ⟨0, 0, 0, 0, 0, 0⟩

/-- Object spread of a partial record on top of a complete one:
a key present in `o` wins over `base`. -/
def mergeStats (base : Stats) (o : RawStats) : Stats :=
  ⟨o.hp.getD base.hp, o.atk.getD base.atk, o.def_.getD base.def_,
   o.spa.getD base.spa, o.spd.getD base.spd, o.spe.getD base.spe⟩

/-- Spread of an optional partial record (spreading `undefined` is a no-op). -/
def spreadStats (base : Stats) (o : Option RawStats) : Stats :=
  match o with
  | none => base
  | some r => mergeStats base r

/-- JS truthiness of an optional number (`0` and `undefined` are falsy). -/
def jsTruthyNat : Option Nat → Bool
  | some n => n != 0
  | none => false

/-- JS `a || d` for an optional number against a number default. -/
def jsOrNat (a : Option Nat) (d : Nat) : Nat :=
  match a with
  | some n => if n = 0 then d else n
  | none => d

/-- JS truthiness of an optional string (`""` and `undefined` are falsy). -/
def jsTruthyStr : Option String → Bool
  | some s => s != ""
  | none => false

/-- JS `a || d` for an optional string against a string default. -/
def jsOrStr (a : Option String) (d : String) : String :=
  match a with
  | some s => if s = "" then d else s
  | none => d

/-- JS `a || b` where both sides are possibly-undefined strings. -/
def jsOrOptStr (a b : Option String) : Option String :=
  if jsTruthyStr a then a else b

/-- One trainer preset from the per-generation setdex data
(`speciesSets[setName]` in the source).  Every attribute is optional. -/
structure Preset where
  level : Option Nat := none
  ability : Option String := none
  item : Option String := none
  nature : Option String := none
  ivs : Option RawStats := none
  evs : Option RawStats := none
  moves : Option (List String) := none
  trainer : Option String := none
deriving DecidableEq

/-- Raw per-combatant request configuration (`rawPokemonConfig` in
`graphql_server.js`, `rawPokemonOptions` in `cli_calc.js`). -/
structure RawConfig where
  name : Option String := none
  level : Option Nat := none
  ability : Option String := none
  item : Option String := none
  nature : Option String := none
  ivs : RawStats := emptyRawStats
  evs : RawStats := emptyRawStats
  boosts : RawStats := emptyRawStats
  curHP : Option Nat := none
  status : Option String := none
  isDynamaxed : Option Bool := none
  moves : Option (List String) := none
  trainerPokemon : Option (String × String) := none
deriving DecidableEq

/-- The fully merged combatant options handed to the Pokemon constructor. -/
structure PokemonOptions where
  name : Option String
  level : Nat
  ability : Option String
  item : Option String
  nature : String
  ivs : Stats
  evs : Stats
  boosts : RawStats
  curHP : Option Nat
  status : String
  isDynamaxed : Bool
  moves : List String
deriving DecidableEq

/-- JS word character class, the ASCII set matched by a backslash-w. -/
def isWordChar (c : Char) : Bool := c.isAlpha || c.isDigit || c == '_'

/-- Wordness of the character at a position, the string edge counting as
non-word. -/
def wordness : Option Char → Bool
  | some c => isWordChar c
  | none => false

/-- Case-insensitive prefix stripping: when the pattern is a prefix of the
haystack up to ASCII case, return the remaining haystack. -/
def stripCaseless : (pat hay : List Char) → Option (List Char)
  | [], hay => some hay
  | _ :: _, [] => none
  | p :: ps, h :: hs => if h.toLower == p.toLower then stripCaseless ps hs else none

/-- Whether the pattern matches at the current haystack position with a
word boundary on both ends; `prev` is the character just before the
position. -/
def matchHere (prev : Option Char) (hay pat : List Char) : Bool :=
  match stripCaseless pat hay with
  | none => false
  | some rest =>
    let startB := wordness prev != wordness hay.head?
    let endPrev := if pat.isEmpty then prev else (hay.take pat.length).getLast?
    (startB && (wordness endPrev != wordness rest.head?))

/-- Scan every haystack position for a bounded match. -/
def wbScan (pat : List Char) : Option Char → List Char → Bool
  | prev, [] => matchHere prev [] pat
  | prev, h :: hs => matchHere prev (h :: hs) pat || wbScan pat (some h) hs

/-- Model of `new RegExp ("\\b" ++ t ++ "\\b", "i") .test hay` for a
metacharacter-free `t`: case-insensitive whole-word containment. -/
def wordBoundaryTest (t hay : String) : Bool := wbScan t.data none hay.data

/-- The pattern string the source interpolates the trainer name into. -/
def wbPattern (t : String) : String := "\\b" ++ t ++ "\\b"

/-- Group-balance fragment of JS RegExp syntax checking: scan the pattern
tracking parenthesis depth, a backslash escaping the next character.
Returns `true` when the pattern is rejected by the RegExp constructor. -/
def parenScanBad : List Char → Nat → Bool
  | [], d => d != 0
  | c :: rest, d =>
    if c == '\\' then
      match rest with
      | [] => true
      | _ :: rest2 => parenScanBad rest2 d
    else if c == '(' then parenScanBad rest (d + 1)
    else if c == ')' then (if d == 0 then true else parenScanBad rest (d - 1))
    else parenScanBad rest d

/-- Whether the RegExp constructor rejects the pattern (group-balance
fragment). -/
def regexInvalid (p : String) : Bool := parenScanBad p.data 0

/-- The character class escaped by `getTrainerPokemonSets` before building
its regex (the JS literal class of special regex characters). -/
def isRegexMeta (c : Char) : Bool :=
  ['-', '/', '\\', '^', '$', '*', '+', '?', '.', '(', ')', '|', '[', ']', '{', '}'].contains c

/-- A trainer name free of regex metacharacters, for which the unescaped
interpolation is a literal match. -/
def regexSafe (t : String) : Bool := t.data.all (fun c => !isRegexMeta c)

/-- Escape one character as the replace callback does. -/
def escapeRegexChar (c : Char) : List Char :=
  if isRegexMeta c then ['\\', c] else [c]

/-- The `trainerName.replace` escaping in `getTrainerPokemonSets`. -/
def escapeRegex (t : String) : String :=
  ⟨(t.data.map escapeRegexChar).flatten⟩

/-- Characters up to the first space. -/
def firstWordChars : List Char → List Char
  | [] => []
  | c :: cs => if c == ' ' then [] else c :: firstWordChars cs

/-- First space-delimited token, as `s.split (" ") [0]` computes it. -/
def firstWord (s : String) : String := ⟨firstWordChars s.data⟩

/-- Resolution-time failures of the core (spec section 7 taxonomy, plus
the regex construction failure the source can also raise). -/
inductive ResolveError where
  | datasetNotFound : Nat → ResolveError
  | speciesNotFound : String → ResolveError
  | regexSyntaxError : String → ResolveError
  | trainerSetNotFound : String → ResolveError
  | missingPokemonName : ResolveError
deriving DecidableEq

/-- Strong-match test of the resolver loop: the regex matches the set name,
or the set has a truthy trainer label the regex matches. -/
def strongMatch (t setName : String) (trainerLabel : Option String) : Bool :=
  wordBoundaryTest t setName ||
    (match trainerLabel with
     | some lbl => (lbl != "") && wordBoundaryTest t lbl
     | none => false)

/-- The `for (const setName in speciesSets)` loop of `getPokemonOptions`
(identical in both source files): the regex is constructed each iteration
(so an invalid pattern raises on the first entry); a strong match returns
immediately; otherwise the first first-word ("weak") match is remembered
in the accumulator. -/
def resolveLoop (t : String) :
    List (String × Preset) → Option Preset → Except ResolveError (Option Preset)
  | [], acc => .ok acc
  | (setName, p) :: rest, acc =>
    if regexInvalid (wbPattern t) then .error (.regexSyntaxError (wbPattern t))
    else if strongMatch t setName p.trainer then .ok (some p)
    else
      resolveLoop t rest
        (if acc.isNone && (firstWord setName == firstWord t) then some p else acc)

/-- Full single-set resolution for one species: the loop, then the direct
key fallback, then the trainer-not-found failure. -/
def resolveSet (sets : List (String × Preset)) (t : String) : Except ResolveError Preset :=
  match resolveLoop t sets none with
  | .error e => .error e
  | .ok (some p) => .ok p
  | .ok none =>
    match sets.lookup t with
    | some p => .ok p
    | none => .error (.trainerSetNotFound t)

/-- Per-generation dataset: species name to ordered preset list. -/
abbrev Setdex := List (String × List (String × Preset))

/-- The base options layer both implementations build before the trainer
branch (defaults overlaid with the explicit raw fields), parameterised by
the default sextuples the CLI passes in. -/
def buildBaseOptionsWith (dIVs dEVs : Stats) (raw : RawConfig) : PokemonOptions :=
  { name := raw.name
    level := jsOrNat raw.level 100
    ability := raw.ability
    item := raw.item
    nature := jsOrStr raw.nature "Serious"
    ivs := mergeStats dIVs raw.ivs
    evs := mergeStats dEVs raw.evs
    boosts := raw.boosts
    curHP := raw.curHP
    status := jsOrStr raw.status ""
    isDynamaxed := raw.isDynamaxed.getD false
    moves := raw.moves.getD [] }

/-- getPokemonOptions of `graphql_server.js`.  In the trainer branch the
IV/EV sextuples are rebuilt as defaults, then preset values, then the
explicit raw values; level/ability/item/nature fall back to the base
layer; moves are replaced wholesale when the preset defines them. -/
def getPokemonOptionsG (setdexByGen : Nat → Option Setdex) (genNum : Nat)
    (raw : RawConfig) : Except ResolveError PokemonOptions :=
  let base := buildBaseOptionsWith defaultIVs defaultEVs raw
  let merged : Except ResolveError PokemonOptions :=
    match raw.trainerPokemon with
    | none => .ok base
    | some (speciesName, trainerName) =>
      match setdexByGen genNum with
      | none => .error (.datasetNotFound genNum)
      | some dex =>
        match dex.lookup speciesName with
        | none => .error (.speciesNotFound speciesName)
        | some speciesSets =>
          match resolveSet speciesSets trainerName with
          | .error e => .error e
          | .ok ts =>
            .ok { base with
              name := some speciesName
              level := jsOrNat ts.level base.level
              ability := jsOrOptStr ts.ability base.ability
              item := jsOrOptStr ts.item base.item
              nature := jsOrStr ts.nature base.nature
              ivs := mergeStats (spreadStats defaultIVs ts.ivs) raw.ivs
              evs := mergeStats (spreadStats defaultEVs ts.evs) raw.evs
              moves := ts.moves.getD base.moves }
  match merged with
  | .error e => .error e
  | .ok opts =>
    if jsTruthyStr opts.name then .ok opts else .error .missingPokemonName

/-- getPokemonOptions of `cli_calc.js`.  Unlike the GraphQL version, the
trainer branch rebuilds level/ability/item/nature from the preset against
the bare defaults (discarding the explicit raw values) and rebuilds the
IV/EV sextuples as defaults overlaid with the preset values only (the
explicit raw sextuples are discarded). -/
def getPokemonOptionsC (dIVs dEVs : Stats) (setdexByGen : Nat → Option Setdex)
    (genNum : Nat) (raw : RawConfig) : Except ResolveError PokemonOptions :=
  let base := buildBaseOptionsWith dIVs dEVs raw
  let merged : Except ResolveError PokemonOptions :=
    match raw.trainerPokemon with
    | none => .ok base
    | some (speciesName, trainerName) =>
      match setdexByGen genNum with
      | none => .error (.datasetNotFound genNum)
      | some dex =>
        match dex.lookup speciesName with
        | none => .error (.speciesNotFound speciesName)
        | some speciesSets =>
          match resolveSet speciesSets trainerName with
          | .error e => .error e
          | .ok ts =>
            .ok { base with
              name := some speciesName
              level := jsOrNat ts.level 100
              ability := ts.ability
              item := ts.item
              nature := jsOrStr ts.nature "Serious"
              ivs := spreadStats dIVs ts.ivs
              evs := spreadStats dEVs ts.evs
              moves := ts.moves.getD base.moves }
  match merged with
  | .error e => .error e
  | .ok opts =>
    if jsTruthyStr opts.name then .ok opts else .error .missingPokemonName

/-- View of a complete sextuple as a partial one with every key present. -/
def statsToRaw (s : Stats) : RawStats :=
  ⟨some s.hp, some s.atk, some s.def_, some s.spa, some s.spd, some s.spe⟩

/-- One element of the `getTrainerPokemonSets` response list. -/
structure TrainerPokemonSet where
  speciesName : String
  setName : String
  level : Option Nat
  ability : String
  item : String
  nature : String
  ivs : RawStats
  evs : RawStats
  moves : List String
deriving DecidableEq

/-- The per-set output record `getTrainerPokemonSets` pushes. -/
def mkTrainerPokemonSet (species setName : String) (s : Preset) : TrainerPokemonSet :=
  { speciesName := species
    setName := setName
    level := s.level
    ability := jsOrStr s.ability "N/A"
    item := jsOrStr s.item "N/A"
    nature := jsOrStr s.nature "Serious"
    ivs := (s.ivs).getD (statsToRaw defaultIVs)
    evs := (s.evs).getD (statsToRaw defaultEVs)
    moves := (s.moves).getD [] }

/-- getTrainerPokemonSets of `graphql_server.js` (the bulk listing).  The
trainer name is escaped before interpolation, so the constructed regex is
a literal whole-word matcher; the escaped pattern never fails to
construct (proved below). -/
def getTrainerPokemonSets (setdexByGen : Nat → Option Setdex) (generation : Nat)
    (trainerName : String) : Except ResolveError (List TrainerPokemonSet) :=
  match setdexByGen generation with
  | none => .error (.datasetNotFound generation)
  | some dex =>
    if regexInvalid (wbPattern (escapeRegex trainerName)) then
      .error (.regexSyntaxError (wbPattern (escapeRegex trainerName)))
    else
      .ok ((dex.map (fun sp =>
        sp.2.filterMap (fun e =>
          if strongMatch trainerName e.1 e.2.trainer then
            some (mkTrainerPokemonSet sp.1 e.1 e.2)
          else none))).flatten)

/-- The summary block built for each combatant (name, level, ability,
item, with the "N/A" fallbacks applied). -/
structure PokemonSummary where
  name : String
  level : Nat
  ability : String
  item : String
deriving DecidableEq

/-- The fields of an engine move object the formatter reads. -/
structure Move where
  name : String
  bp : Nat
deriving DecidableEq

/-- The fields of a successful engine calculation the formatter reads:
the damage range, the KO-chance text and the description. -/
structure CalcSuccess where
  dmgMin : Nat
  dmgMax : Nat
  koText : String
  descText : String
deriving DecidableEq

/-- One formatted hit record.  Percentages are modelled as exact
rationals; the JS doubles agree with them on the realistic value ranges
involved. -/
structure HitResult where
  damageRange : Nat × Nat
  percentageRange : ℚ × ℚ
  koChance : String
  description : String
deriving DecidableEq

/-- One attack direction of the external damage engine: the closure over
(generation, attacker, defender, field) behind its two fallible entry
points, the Move constructor and calculate, plus the defender queries and
the two summary blocks the direction result carries. -/
structure DirEngine where
  mkMove : String → Bool → Except String Move
  runCalc : String → Bool → Except String CalcSuccess
  attackerSummary : PokemonSummary
  defenderSummary : PokemonSummary
  defenderName : String
  defenderMaxHP : Nat

/-- The percentage computation of the source:
`Math.floor (damage * 1000 / defender.maxHP ()) / 10`, with the floored
division carried out as natural division. -/
def pct (damage maxHP : Nat) : ℚ := ((damage * 1000 / maxHP : Nat) : ℚ) / 10

/-- getFormattedResult, identical in both source files.  The Move
constructor runs outside the try block, so its failure propagates as
`Except.error`; every branch after a successful construction returns a
`HitResult`. -/
def getFormattedResult (e : DirEngine) (moveName : String) (isCrit : Bool) :
    Except String HitResult :=
  match e.mkMove moveName isCrit with
  | .error msg => .error msg
  | .ok move =>
    if move.bp = 0 then
      .ok { damageRange := (0, 0)
            percentageRange := (0, 0)
            koChance := "No damaging effect"
            description :=
              if isCrit then
                move.name ++ " is a non-damaging move, so it cannot critically hit."
              else
                move.name ++ " is a non-damaging move." }
    else
      match e.runCalc moveName isCrit with
      | .error msg =>
        .ok { damageRange := (0, 0)
              percentageRange := (0, 0)
              koChance := "Calculation Error / No effect"
              description := move.name ++ " could not be calculated: " ++ msg }
      | .ok r =>
        if r.dmgMax = 0 then
          .ok { damageRange := (0, 0)
                percentageRange := (0, 0)
                koChance := "Immune / No damaging effect"
                description :=
                  move.name ++ " had no damaging effect on " ++ e.defenderName ++ "." }
        else
          .ok { damageRange := (r.dmgMin, r.dmgMax)
                percentageRange := (pct r.dmgMin e.defenderMaxHP, pct r.dmgMax e.defenderMaxHP)
                koChance := r.koText
                description := r.descText }

/-- One move calculation entry: move name, normal hit, critical hit. -/
abbrev MoveCalc := String × HitResult × HitResult

/-- The per-direction move loop: each move name yields a normal-hit and a
critical-hit formatted result; an uncaught exception from either call
aborts the rest of the loop (the JS for-loop has no try around the
formatter calls). -/
def computeMoveResults (e : DirEngine) : List String → Except String (List MoveCalc)
  | [] => .ok []
  | m :: rest =>
    match getFormattedResult e m false with
    | .error msg => .error msg
    | .ok nh =>
      match getFormattedResult e m true with
      | .error msg => .error msg
      | .ok ch =>
        match computeMoveResults e rest with
        | .error msg => .error msg
        | .ok tail => .ok ((m, nh, ch) :: tail)

/-- AttackDirectionResult as the GraphQL resolver builds it: the moves
list is always present (empty in the no-moves branch). -/
structure AttackDirectionResultG where
  attacker : PokemonSummary
  defender : PokemonSummary
  moves : List MoveCalc
  message : Option String
deriving DecidableEq

/-- One attack direction of the GraphQL resolver `calculateDamage`. -/
def attackDirectionG (e : DirEngine) (moves : List String) :
    Except String AttackDirectionResultG :=
  if moves.length > 0 then
    match computeMoveResults e moves with
    | .error msg => .error msg
    | .ok mcs =>
      .ok { attacker := e.attackerSummary
            defender := e.defenderSummary
            moves := mcs
            message := none }
  else
    .ok { attacker := e.attackerSummary
          defender := e.defenderSummary
          moves := []
          message := some (e.attackerSummary.name ++ " has no moves to calculate.") }

/-- The full GraphQL matchup result. -/
structure MatchupResultG where
  generation : Nat
  pokemon1 : PokemonSummary
  pokemon2 : PokemonSummary
  pokemon1AttackingPokemon2 : AttackDirectionResultG
  pokemon2AttackingPokemon1 : AttackDirectionResultG
deriving DecidableEq

/-- The GraphQL resolver `calculateDamage`, after the combatant options
and engine closures have been built: direction 1 runs first, direction 2
second, and an uncaught exception from either aborts the whole request. -/
def calculateDamageG (genNum : Nat) (e12 e21 : DirEngine)
    (moves1 moves2 : List String) : Except String MatchupResultG :=
  match attackDirectionG e12 moves1 with
  | .error msg => .error msg
  | .ok d12 =>
    match attackDirectionG e21 moves2 with
    | .error msg => .error msg
    | .ok d21 =>
      .ok { generation := genNum
            pokemon1 := e12.attackerSummary
            pokemon2 := e21.attackerSummary
            pokemon1AttackingPokemon2 := d12
            pokemon2AttackingPokemon1 := d21 }

/-- AttackDirectionResult as `calculateDamageCLI` builds it: in the
no-moves branch the result object has no moves key at all, modelled by
`none` (the with-moves branch always produces `some`). -/
structure AttackDirectionResultC where
  attacker : PokemonSummary
  defender : PokemonSummary
  moves : Option (List MoveCalc)
  message : Option String
deriving DecidableEq

/-- One attack direction of `calculateDamageCLI`. -/
def attackDirectionC (e : DirEngine) (moves : List String) :
    Except String AttackDirectionResultC :=
  if moves.length > 0 then
    match computeMoveResults e moves with
    | .error msg => .error msg
    | .ok mcs =>
      .ok { attacker := e.attackerSummary
            defender := e.defenderSummary
            moves := some mcs
            message := none }
  else
    .ok { attacker := e.attackerSummary
          defender := e.defenderSummary
          moves := none
          message := some (e.attackerSummary.name ++ " has no moves to calculate.") }

/-- The CLI matchup result body (the CLI prints it as JSON; its outer
try/catch turns any uncaught exception into an error printout, modelled
by the error branch). -/
structure MatchupResultC where
  pokemon1AttackingPokemon2 : AttackDirectionResultC
  pokemon2AttackingPokemon1 : AttackDirectionResultC
deriving DecidableEq

/-- The two-direction body of `calculateDamageCLI`. -/
def calculateDamageC (e12 e21 : DirEngine) (moves1 moves2 : List String) :
    Except String MatchupResultC :=
  match attackDirectionC e12 moves1 with
  | .error msg => .error msg
  | .ok d12 =>
    match attackDirectionC e21 moves2 with
    | .error msg => .error msg
    | .ok d21 =>
      .ok { pokemon1AttackingPokemon2 := d12
            pokemon2AttackingPokemon1 := d21 }

/-- Floor-based percentage as the specification words it:
floor (damage * 1000 / defenderMaxHP) / 10, truncated toward zero. -/
def specPercentage (damage maxHP : Nat) : ℚ :=
  ((⌊(damage * 1000 : ℚ) / (maxHP : ℚ)⌋₊ : Nat) : ℚ) / 10

instance {ε α : Type} [DecidableEq ε] [DecidableEq α] : DecidableEq (Except ε α) :=
  fun x y =>
    match x, y with
    | .error a, .error b =>
      if h : a = b then .isTrue (h ▸ rfl) else .isFalse (fun hc => h (Except.error.inj hc))
    | .ok a, .ok b =>
      if h : a = b then .isTrue (h ▸ rfl) else .isFalse (fun hc => h (Except.ok.inj hc))
    | .error _, .ok _ => .isFalse (fun hc => Except.noConfusion hc)
    | .ok _, .error _ => .isFalse (fun hc => Except.noConfusion hc)

/-! Concrete fixtures used by the witnesses and counterexamples below.
They mirror the shapes of the shipped setdex data (for example the
Fisherman Elliot Staryu set the repository documentation uses as its
running example). -/

/-- Modelled from the spec words for one stat of the merge: default,
then preset value, then explicit rawConfig value, in that order. -/
def specMergedStat (d : Nat) (presetV rawV : Option Nat) : Nat :=
  rawV.getD (presetV.getD d)

/-- Modelled from the spec words for a whole sextuple: every stat is
merged as default, then preset value, then explicit rawConfig value. -/
def specMergedSextuple (d : Stats) (presetS : Option RawStats) (rawS : RawStats) : Stats :=
  { hp := specMergedStat d.hp (presetS.getD emptyRawStats).hp rawS.hp
    atk := specMergedStat d.atk (presetS.getD emptyRawStats).atk rawS.atk
    def_ := specMergedStat d.def_ (presetS.getD emptyRawStats).def_ rawS.def_
    spa := specMergedStat d.spa (presetS.getD emptyRawStats).spa rawS.spa
    spd := specMergedStat d.spd (presetS.getD emptyRawStats).spd rawS.spd
    spe := specMergedStat d.spe (presetS.getD emptyRawStats).spe rawS.spe }

/-- Observation of a matchup outcome: `none` when the request aborted
with an error, otherwise the per-direction lists of move names that
received formatted results. -/
def matchupMoveNames : Except String MatchupResultG → Option (List String × List String)
  | .error _ => none
  | .ok r =>
    some (r.pokemon1AttackingPokemon2.moves.map (fun x => x.1),
          r.pokemon2AttackingPokemon1.moves.map (fun x => x.1))

/-- A preset supplying level, a partial EV sextuple and a move list, but
no ability, item, nature or IVs. -/
def elliotSet : Preset :=
  { level := some 25
    evs := some { emptyRawStats with spa := some 128, spe := some 252 }
    moves := some ["Surf", "Recover"] }

/-- A preset supplying level and ability but no moves and no sextuples. -/
def normanSet : Preset :=
  { level := some 40
    ability := some "Thick Fat" }

/-- A two-species generation partition. -/
def sampleDex : Setdex :=
  [("Staryu", [("Fisherman Elliot", elliotSet)]),
   ("Snorlax", [("Leader Norman", normanSet)])]

/-- A dataset map with generation 8 loaded. -/
def sampleDexByGen : Nat → Option Setdex :=
  fun g => if g = 8 then some sampleDex else none

/-- A raw config with a trainer reference plus explicit overrides for
level, ability, nature, partial IV/EV sextuples and a move list. -/
def rawStaryu : RawConfig :=
  { level := some 50
    ability := some "Illuminate"
    nature := some "Timid"
    ivs := { emptyRawStats with atk := some 0 }
    evs := { emptyRawStats with hp := some 8, spe := some 4 }
    moves := some ["Tackle"]
    trainerPokemon := some ("Staryu", "Fisherman Elliot") }

/-- A raw config with a trainer reference whose preset has no moves. -/
def rawSnorlax : RawConfig :=
  { moves := some ["Body Slam"]
    trainerPokemon := some ("Snorlax", "Leader Norman") }

/-- A weak-match-only preset (first word of the set name matches). -/
def annaSetWeak : Preset := { level := some 10 }

/-- A strong-match preset (the set name contains the whole trainer name). -/
def annaSetStrong : Preset := { level := some 20 }

/-- A species whose first preset matches only weakly and whose second
preset matches strongly. -/
def annaSets : List (String × Preset) :=
  [("Guitarist Trio", annaSetWeak), ("Rematch Guitarist Anna", annaSetStrong)]

/-- A species with only the weak-match preset. -/
def annaSetsWeakOnly : List (String × Preset) :=
  [("Guitarist Trio", annaSetWeak)]

/-- A preset under a set name containing a parenthesis. -/
def routeSet : Preset := { level := some 5 }

/-- A species list whose set name contains a regex metacharacter. -/
def parenSpecies : List (String × Preset) := [("Route(1)", routeSet)]

/-- A dataset map for the metacharacter scenario. -/
def parenDexByGen : Nat → Option Setdex :=
  fun g => if g = 8 then some [("Pidgey", parenSpecies)] else none

/-- An engine whose Move constructor fails on one specific move name,
reports zero base power for one name, succeeds elsewhere, and whose
calculate fails on one specific name. -/
def sampleEngine : DirEngine :=
  { mkMove := fun n _ =>
      if n = "Bad Move" then .error "boom"
      else .ok { name := n, bp := if n = "Swords Dance" then 0 else 80 }
    runCalc := fun n _ =>
      if n = "Cursed" then .error "engine failure"
      else .ok { dmgMin := 68, dmgMax := 81, koText := "guaranteed 5HKO", descText := "desc" }
    attackerSummary := { name := "Garchomp", level := 100, ability := "Rough Skin", item := "Choice Band" }
    defenderSummary := { name := "Corviknight", level := 100, ability := "Pressure", item := "Leftovers" }
    defenderName := "Corviknight"
    defenderMaxHP := 402 }

/-- The merged options the GraphQL implementation produces for
`rawStaryu`: explicit values win over preset values, preset values win
over defaults. -/
def staryuMergedG : PokemonOptions :=
  { name := some "Staryu"
    level := 25
    ability := some "Illuminate"
    item := none
    nature := "Timid"
    ivs := { defaultIVs with atk := 0 }
    evs := { hp := 8, atk := 0, def_ := 0, spa := 128, spd := 0, spe := 4 }
    boosts := emptyRawStats
    curHP := none
    status := ""
    isDynamaxed := false
    moves := ["Surf", "Recover"] }

/-- The merged options the CLI implementation produces for `rawStaryu`:
the explicit level/ability/nature and the explicit IV/EV overrides are
discarded in the trainer branch. -/
def staryuMergedC : PokemonOptions :=
  { name := some "Staryu"
    level := 25
    ability := none
    item := none
    nature := "Serious"
    ivs := defaultIVs
    evs := { hp := 0, atk := 0, def_ := 0, spa := 128, spd := 0, spe := 252 }
    boosts := emptyRawStats
    curHP := none
    status := ""
    isDynamaxed := false
    moves := ["Surf", "Recover"] }

/-- The merged options the GraphQL implementation produces for
`rawSnorlax`: the preset has no moves, so the explicit list is kept. -/
def snorlaxMergedG : PokemonOptions :=
  { name := some "Snorlax"
    level := 40
    ability := some "Thick Fat"
    item := none
    nature := "Serious"
    ivs := defaultIVs
    evs := defaultEVs
    boosts := emptyRawStats
    curHP := none
    status := ""
    isDynamaxed := false
    moves := ["Body Slam"] }

/-- An engine whose Move constructor is total (never fails) but whose
calculate fails on one move name. -/
def totalCtorEngine : DirEngine :=
  { mkMove := fun n _ => .ok { name := n, bp := 80 }
    runCalc := fun n _ =>
      if n = "Cursed" then .error "engine failure"
      else .ok { dmgMin := 68, dmgMax := 81, koText := "guaranteed 5HKO", descText := "desc" }
    attackerSummary := { name := "Garchomp", level := 100, ability := "Rough Skin", item := "Choice Band" }
    defenderSummary := { name := "Corviknight", level := 100, ability := "Pressure", item := "Leftovers" }
    defenderName := "Corviknight"
    defenderMaxHP := 402 }

/-- An engine pointing the other direction, with a total Move
constructor. -/
def sampleEngineBack : DirEngine :=
  { mkMove := fun n _ => .ok { name := n, bp := 100 }
    runCalc := fun _ _ =>
      .ok { dmgMin := 30, dmgMax := 36, koText := "guaranteed 11HKO", descText := "back desc" }
    attackerSummary := { name := "Corviknight", level := 100, ability := "Pressure", item := "Leftovers" }
    defenderSummary := { name := "Garchomp", level := 100, ability := "Rough Skin", item := "Choice Band" }
    defenderName := "Garchomp"
    defenderMaxHP := 379 }

/-! ## Helper lemmas -/

/-- The natural-division percentage of the source equals the floor-based
percentage of the specification. -/
theorem pct_eq_spec (d hp : Nat) : pct d hp = specPercentage d hp := by
  unfold pct specPercentage
  have h : ((d : ℚ) * 1000) = ((d * 1000 : ℕ) : ℚ) := by push_cast; ring
  rw [h, Nat.floor_div_eq_div]

/-- Appending suffixes of different lengths to the same string gives
different strings. -/
theorem append_ne_of_length_ne (a b c : String) (h : b.length ≠ c.length) :
    a ++ b ≠ a ++ c := by
  intro hc
  have h2 := congrArg String.length hc
  rw [String.length_append, String.length_append] at h2
  omega

/-- A string with a nonempty literal suffix appended is nonempty. -/
theorem append_ne_empty_of_right (a b : String) (h : b.length ≠ 0) : a ++ b ≠ "" := by
  intro hc
  have h2 := congrArg String.length hc
  rw [String.length_append, show ("" : String).length = 0 from rfl] at h2
  omega

/-! ## Claims about the result formatter -/

/-- C7: for every move whose base power is zero, and for both values of
the isCrit flag, the formatter returns the fixed no-damage HitResult
(damage range [0,0], percentage range [0,0], KO-chance text "No damaging
effect"), with a distinct description variant when isCrit is true, and
the result does not depend on the engine calculate operation (it is never
invoked). -/
theorem claim7_status_move_skips_engine (e : DirEngine) (n : String) (m : Move)
    (hf : e.mkMove n false = .ok m) (ht : e.mkMove n true = .ok m) (hbp : m.bp = 0) :
    getFormattedResult e n false =
      .ok { damageRange := (0, 0), percentageRange := (0, 0),
            koChance := "No damaging effect",
            description := m.name ++ " is a non-damaging move." } ∧
    getFormattedResult e n true =
      .ok { damageRange := (0, 0), percentageRange := (0, 0),
            koChance := "No damaging effect",
            description := m.name ++ " is a non-damaging move, so it cannot critically hit." } ∧
    (m.name ++ " is a non-damaging move, so it cannot critically hit.") ≠
      (m.name ++ " is a non-damaging move.") ∧
    (∀ (f : String → Bool → Except String CalcSuccess) (c : Bool),
      getFormattedResult { e with runCalc := f } n c = getFormattedResult e n c) := by
  refine ⟨?_, ?_, ?_, ?_⟩
  · simp [getFormattedResult, hf, hbp]
  · simp [getFormattedResult, ht, hbp]
  · apply append_ne_of_length_ne
    rw [show (" is a non-damaging move, so it cannot critically hit.").length = 53 from rfl,
      show (" is a non-damaging move.").length = 24 from rfl]
    omega
  · intro f c
    cases c <;> simp [getFormattedResult, hf, ht, hbp]

/-- C7 witness: the zero-base-power move of the sample engine yields the
no-damage record for both crit flags. -/
theorem claim7_witness :
    getFormattedResult sampleEngine "Swords Dance" false =
      .ok { damageRange := (0, 0), percentageRange := (0, 0),
            koChance := "No damaging effect",
            description := "Swords Dance is a non-damaging move." } ∧
    getFormattedResult sampleEngine "Swords Dance" true =
      .ok { damageRange := (0, 0), percentageRange := (0, 0),
            koChance := "No damaging effect",
            description := "Swords Dance is a non-damaging move, so it cannot critically hit." } := by
  have h := claim7_status_move_skips_engine sampleEngine "Swords Dance"
    { name := "Swords Dance", bp := 0 } (by decide) (by decide) rfl
  exact ⟨h.1, h.2.1⟩

/-- C8: whenever the engine calculate operation raises an error, the
formatter catches it and returns the degraded HitResult with damage
range [0,0], percentage range [0,0], KO-chance text "Calculation Error /
No effect" and a description embedding the error message; the error is
never propagated (the formatter returns ok). -/
theorem claim8_engine_error_caught (e : DirEngine) (n : String) (c : Bool)
    (m : Move) (msg : String)
    (hm : e.mkMove n c = .ok m) (hbp : m.bp ≠ 0) (hc : e.runCalc n c = .error msg) :
    getFormattedResult e n c =
      .ok { damageRange := (0, 0), percentageRange := (0, 0),
            koChance := "Calculation Error / No effect",
            description := m.name ++ " could not be calculated: " ++ msg } := by
  simp [getFormattedResult, hm, hbp, hc]

/-- C8 witness: the sample engine raises "engine failure" on the move
named Cursed and the formatter converts it into a degraded HitResult. -/
theorem claim8_witness :
    getFormattedResult sampleEngine "Cursed" false =
      .ok { damageRange := (0, 0), percentageRange := (0, 0),
            koChance := "Calculation Error / No effect",
            description := "Cursed could not be calculated: engine failure" } := by
  have h := claim8_engine_error_caught sampleEngine "Cursed" false
    { name := "Cursed", bp := 80 } "engine failure" (by decide) (by decide) (by decide)
  exact h

/-- C9: on the success path with positive maximum damage each percentage
bound equals floor (damage * 1000 / defenderMaxHP) / 10 (truncated toward
zero, not rounded); in particular damage 81 against maximum HP 402 gives
201 / 10 = 20.1 and not 20.2. -/
theorem claim9_percentage_truncation (e : DirEngine) (n : String) (c : Bool)
    (m : Move) (r : CalcSuccess)
    (hm : e.mkMove n c = .ok m) (hbp : m.bp ≠ 0) (hr : e.runCalc n c = .ok r)
    (hmax : r.dmgMax ≠ 0) :
    getFormattedResult e n c =
      .ok { damageRange := (r.dmgMin, r.dmgMax),
            percentageRange :=
              (specPercentage r.dmgMin e.defenderMaxHP,
               specPercentage r.dmgMax e.defenderMaxHP),
            koChance := r.koText, description := r.descText } ∧
    specPercentage 81 402 = 201 / 10 ∧
    specPercentage 81 402 ≠ 202 / 10 := by
  refine ⟨?_, ?_, ?_⟩
  · simp [getFormattedResult, hm, hbp, hr, hmax, pct_eq_spec]
  · rw [← pct_eq_spec]; norm_num [pct]
  · rw [← pct_eq_spec]; norm_num [pct]

/-- C9 witness: the sample engine reports the range [68, 81] against a
defender with maximum HP 402; the percentages are 169 / 10 and 201 / 10
(truncation, not rounding). -/
theorem claim9_witness :
    getFormattedResult sampleEngine "Dragon Claw" false =
      .ok { damageRange := (68, 81),
            percentageRange := (169 / 10, 201 / 10),
            koChance := "guaranteed 5HKO", description := "desc" } := by
  have h := (claim9_percentage_truncation sampleEngine "Dragon Claw" false
    { name := "Dragon Claw", bp := 80 }
    { dmgMin := 68, dmgMax := 81, koText := "guaranteed 5HKO", descText := "desc" }
    (by decide) (by decide) (by decide) (by decide)).1
  rw [h]
  dsimp only [sampleEngine]
  rw [show specPercentage 68 402 = 169 / 10 from by rw [← pct_eq_spec]; norm_num [pct],
    show specPercentage 81 402 = 201 / 10 from by rw [← pct_eq_spec]; norm_num [pct]]

/-- C10: resolveOne interpolates the trainer name into its regex without
escaping, so a trainer name containing a parenthesis makes the regex
constructor raise a syntax error inside the resolution loop (neither a
literal match nor a TrainerSetNotFound failure), while the bulk listing
getTrainerPokemonSets escapes the same name and matches it literally. -/
theorem claim10_unescaped_regex_raises :
    resolveSet parenSpecies "(" = .error (.regexSyntaxError "\\b(\\b") ∧
    (ResolveError.regexSyntaxError "\\b(\\b" ≠ .trainerSetNotFound "(") ∧
    getTrainerPokemonSets parenDexByGen 8 "(" =
      .ok [mkTrainerPokemonSet "Pidgey" "Route(1)" routeSet] := by
  exact ⟨by decide, by decide, by decide⟩

/-! ## Claims about the matchup orchestration -/

/-- Once the Move constructor has succeeded, every branch of the
formatter returns a HitResult. -/
theorem getFormattedResult_ok_of_mkMove (e : DirEngine) (n : String) (c : Bool)
    (m : Move) (h : e.mkMove n c = .ok m) :
    ∃ hr, getFormattedResult e n c = .ok hr := by
  unfold getFormattedResult
  rw [h]
  by_cases hb : m.bp = 0
  · simp [hb]
  · simp only [hb, if_false]
    cases hc : e.runCalc n c with
    | error msg => exact ⟨_, rfl⟩
    | ok r =>
      by_cases hd : r.dmgMax = 0
      · simp [hd]
      · simp [hd]

/-- With a total Move constructor the move loop formats every move and
preserves the move names in order. -/
theorem computeMoveResults_total (e : DirEngine)
    (h : ∀ n c, ∃ m, e.mkMove n c = .ok m) :
    ∀ ms : List String, ∃ l, computeMoveResults e ms = .ok l ∧
      l.map (fun x => x.1) = ms := by
  intro ms
  induction ms with
  | nil => exact ⟨[], rfl, rfl⟩
  | cons m rest ih =>
    obtain ⟨mvF, hmvF⟩ := h m false
    obtain ⟨nh, hnh⟩ := getFormattedResult_ok_of_mkMove e m false mvF hmvF
    obtain ⟨mvT, hmvT⟩ := h m true
    obtain ⟨ch, hch⟩ := getFormattedResult_ok_of_mkMove e m true mvT hmvT
    obtain ⟨l, hl, hmap⟩ := ih
    refine ⟨(m, nh, ch) :: l, ?_, by simp [hmap]⟩
    unfold computeMoveResults
    rw [hnh, hch, hl]

/-- With a total Move constructor a direction always produces a result
whose move entries are exactly the attacker moves in order. -/
theorem attackDirectionG_total (e : DirEngine)
    (h : ∀ n c, ∃ m, e.mkMove n c = .ok m) (ms : List String) :
    ∃ d, attackDirectionG e ms = .ok d ∧ d.moves.map (fun x => x.1) = ms := by
  cases ms with
  | nil => exact ⟨_, rfl, rfl⟩
  | cons hd tl =>
    obtain ⟨l, hl, hmap⟩ := computeMoveResults_total e h (hd :: tl)
    refine ⟨{ attacker := e.attackerSummary, defender := e.defenderSummary,
              moves := l, message := none }, ?_, hmap⟩
    simp [attackDirectionG, hl]

/-- C3 counterexample: a failure raised while constructing the Move for
the first move of direction 1 (the constructor runs outside the try
block) aborts the sibling move, the other direction, and the whole
request - no HitResult is produced for any of them. -/
theorem claim3_counterexample :
    calculateDamageG 9 sampleEngine sampleEngineBack
      ["Bad Move", "Dragon Claw"] ["Brave Bird"] = .error "boom" := by
  decide

/-- C3 (amended): when the failures are confined to the engine calculate
invocation (the Move constructor never fails), no move ever aborts the
computation: the request succeeds and every move of both directions
receives a formatted HitResult, in order. -/
theorem claim3_calc_errors_isolated (g : Nat) (e12 e21 : DirEngine)
    (ms1 ms2 : List String)
    (h12 : ∀ n c, ∃ m, e12.mkMove n c = .ok m)
    (h21 : ∀ n c, ∃ m, e21.mkMove n c = .ok m) :
    matchupMoveNames (calculateDamageG g e12 e21 ms1 ms2) = some (ms1, ms2) := by
  obtain ⟨d12, h1, hm1⟩ := attackDirectionG_total e12 h12 ms1
  obtain ⟨d21, h2, hm2⟩ := attackDirectionG_total e21 h21 ms2
  unfold calculateDamageG
  rw [h1, h2]
  simp [matchupMoveNames, hm1, hm2]

/-- C3 witness: with a total Move constructor, a calculate failure on the
move named Cursed does not abort its sibling move nor the other
direction - every move name receives a formatted entry. -/
theorem claim3_witness :
    matchupMoveNames (calculateDamageG 9 totalCtorEngine totalCtorEngine
      ["Cursed", "Dragon Claw"] ["Brave Bird"]) =
      some (["Cursed", "Dragon Claw"], ["Brave Bird"]) := by
  exact claim3_calc_errors_isolated 9 totalCtorEngine totalCtorEngine
    ["Cursed", "Dragon Claw"] ["Brave Bird"]
    (fun n c => ⟨{ name := n, bp := 80 }, rfl⟩)
    (fun n c => ⟨{ name := n, bp := 80 }, rfl⟩)

/-- C5 counterexample: in the CLI implementation the no-moves branch
omits the moves field entirely (there is no empty move list in the
emitted direction result), although the message is present. -/
theorem claim5_counterexample :
    (attackDirectionC sampleEngine []).map (fun d => d.moves) = .ok none ∧
    (none : Option (List MoveCalc)) ≠ some [] ∧
    (attackDirectionC sampleEngine []).map (fun d => d.message) =
      .ok (some "Garchomp has no moves to calculate.") := by
  exact ⟨by decide, by decide, by decide⟩

/-- C5 (amended): for an empty merged move list, the GraphQL direction
result carries an empty move list and a non-empty message, the engine is
never invoked for that direction (the result does not depend on the
engine functions), and the other direction is computed independently;
the CLI direction result carries the same non-empty message but omits
the moves field instead of carrying an empty list. -/
theorem claim5_empty_direction (g : Nat) (e e2 : DirEngine) (ms2 : List String)
    (d21 : AttackDirectionResultG) (hd : attackDirectionG e2 ms2 = .ok d21) :
    attackDirectionG e [] =
      .ok { attacker := e.attackerSummary, defender := e.defenderSummary,
            moves := [],
            message := some (e.attackerSummary.name ++ " has no moves to calculate.") } ∧
    (e.attackerSummary.name ++ " has no moves to calculate.") ≠ "" ∧
    (∀ e' : DirEngine, e'.attackerSummary = e.attackerSummary →
      e'.defenderSummary = e.defenderSummary →
      attackDirectionG e' [] = attackDirectionG e []) ∧
    calculateDamageG g e e2 [] ms2 =
      .ok { generation := g, pokemon1 := e.attackerSummary,
            pokemon2 := e2.attackerSummary,
            pokemon1AttackingPokemon2 :=
              { attacker := e.attackerSummary, defender := e.defenderSummary,
                moves := [],
                message := some (e.attackerSummary.name ++ " has no moves to calculate.") },
            pokemon2AttackingPokemon1 := d21 } ∧
    attackDirectionC e [] =
      .ok { attacker := e.attackerSummary, defender := e.defenderSummary,
            moves := none,
            message := some (e.attackerSummary.name ++ " has no moves to calculate.") } := by
  have h0 : attackDirectionG e [] =
      .ok { attacker := e.attackerSummary, defender := e.defenderSummary,
            moves := [],
            message := some (e.attackerSummary.name ++ " has no moves to calculate.") } := rfl
  refine ⟨h0, ?_, ?_, ?_, rfl⟩
  · apply append_ne_empty_of_right
    rw [show (" has no moves to calculate.").length = 27 from rfl]
    omega
  · intro e' ha hdf
    unfold attackDirectionG
    rw [ha, hdf]
    simp
  · unfold calculateDamageG
    rw [h0, hd]

/-- C5 witness: both implementations at a concrete engine with an empty
move list for direction 1 and a status move for direction 2. -/
theorem claim5_witness :
    attackDirectionG sampleEngine [] =
      .ok { attacker := sampleEngine.attackerSummary,
            defender := sampleEngine.defenderSummary,
            moves := [],
            message := some "Garchomp has no moves to calculate." } ∧
    "Garchomp has no moves to calculate." ≠ "" ∧
    attackDirectionC sampleEngine [] =
      .ok { attacker := sampleEngine.attackerSummary,
            defender := sampleEngine.defenderSummary,
            moves := none,
            message := some "Garchomp has no moves to calculate." } := by
  have h := claim5_empty_direction 9 sampleEngine sampleEngine ["Swords Dance"]
    { attacker := sampleEngine.attackerSummary,
      defender := sampleEngine.defenderSummary,
      moves := [("Swords Dance",
        { damageRange := (0, 0), percentageRange := (0, 0),
          koChance := "No damaging effect",
          description := "Swords Dance is a non-damaging move." },
        { damageRange := (0, 0), percentageRange := (0, 0),
          koChance := "No damaging effect",
          description := "Swords Dance is a non-damaging move, so it cannot critically hit." })],
      message := none } (by decide)
  exact ⟨h.1, h.2.1, h.2.2.2.2⟩

/-! ## Claims about the configuration merge -/

/-- The GraphQL sextuple rebuild (defaults, overlaid with the preset
values, overlaid with the explicit raw values) implements the
specification precedence default, then preset, then explicit value. -/
theorem mergeStats_spread_eq_spec (d : Stats) (p : Option RawStats) (r : RawStats) :
    mergeStats (spreadStats d p) r = specMergedSextuple d p r := by
  cases p <;>
    simp [mergeStats, spreadStats, specMergedSextuple, specMergedStat, emptyRawStats]

/-- C1 counterexample: in the CLI implementation an explicitly supplied
EV (spe = 4) alongside a trainer reference does not survive the merge -
the result carries the preset value 252 instead. -/
theorem claim1_counterexample :
    (getPokemonOptionsC defaultIVs defaultEVs sampleDexByGen 8 rawStaryu).map
      (fun o => o.evs.spe) = .ok 252 ∧
    rawStaryu.evs.spe = some 4 ∧
    (252 : Nat) ≠ 4 := by
  exact ⟨by decide, by decide, by decide⟩

/-- C1 (amended): in the GraphQL implementation, for every rawConfig with
a trainer reference that resolves to a preset, the merged IV and EV
sextuples follow the precedence default, then preset value, then
explicit rawConfig value, for every stat (so an explicitly supplied stat
equals the rawConfig value, a stat supplied only by the preset equals
the preset value, and every remaining stat equals the default, 31 for
IVs and 0 for EVs); the CLI implementation instead discards the explicit
rawConfig sextuples when a trainer reference is used. -/
theorem claim1_merge_precedence (dexF : Nat → Option Setdex) (g : Nat)
    (raw : RawConfig) (sp tn : String) (dex : Setdex)
    (sets : List (String × Preset)) (ts : Preset) (opts : PokemonOptions)
    (htr : raw.trainerPokemon = some (sp, tn))
    (hdex : dexF g = some dex)
    (hsp : dex.lookup sp = some sets)
    (hres : resolveSet sets tn = .ok ts)
    (hok : getPokemonOptionsG dexF g raw = .ok opts) :
    opts.ivs = specMergedSextuple defaultIVs ts.ivs raw.ivs ∧
    opts.evs = specMergedSextuple defaultEVs ts.evs raw.evs := by
  simp only [getPokemonOptionsG, htr, hdex, hsp, hres] at hok
  split at hok
  · obtain rfl := (Except.ok.inj hok).symm
    exact ⟨mergeStats_spread_eq_spec defaultIVs ts.ivs raw.ivs,
           mergeStats_spread_eq_spec defaultEVs ts.evs raw.evs⟩
  · simp at hok

/-- C1 witness: the Fisherman Elliot Staryu scenario - explicit EV
spe = 4 wins over the preset 252, the preset-only EV spa = 128 wins over
the default, untouched stats keep the defaults. -/
theorem claim1_witness :
    staryuMergedG.ivs = specMergedSextuple defaultIVs elliotSet.ivs rawStaryu.ivs ∧
    staryuMergedG.evs = specMergedSextuple defaultEVs elliotSet.evs rawStaryu.evs ∧
    staryuMergedG.evs.spe = 4 ∧ rawStaryu.evs.spe = some 4 ∧
    staryuMergedG.evs.spa = 128 ∧ rawStaryu.evs.spa = none ∧
    staryuMergedG.evs.atk = 0 ∧ staryuMergedG.ivs.hp = 31 := by
  have h := claim1_merge_precedence sampleDexByGen 8 rawStaryu
    "Staryu" "Fisherman Elliot" sampleDex [("Fisherman Elliot", elliotSet)]
    elliotSet staryuMergedG (by decide) (by decide) (by decide) (by decide) (by decide)
  exact ⟨h.1, h.2, by decide, by decide, by decide, by decide, by decide, by decide⟩

/-- C4 counterexample: in the CLI implementation, when the preset does
not define ability or nature, the merged configuration does not fall
back to the explicitly supplied rawConfig values (ability "Illuminate",
nature "Timid") - it carries the bare defaults instead. -/
theorem claim4_counterexample :
    (getPokemonOptionsC defaultIVs defaultEVs sampleDexByGen 8 rawStaryu).map
      (fun o => (o.ability, o.nature)) = .ok (none, "Serious") ∧
    rawStaryu.ability = some "Illuminate" ∧
    rawStaryu.nature = some "Timid" ∧
    ((none : Option String), "Serious") ≠ (some "Illuminate", "Timid") := by
  exact ⟨by decide, by decide, by decide, by decide⟩

/-- C4 (amended): in the GraphQL implementation, for every rawConfig
with a trainer reference that resolves to a preset, each of level,
ability, item and nature equals the preset value when the preset defines
it (JS-truthy), and otherwise equals the value established by the
explicit rawConfig field or its default (level 100, nature "Serious",
ability and item as supplied); the CLI implementation instead rebuilds
these four fields from the preset against the bare defaults, discarding
the explicit rawConfig values. -/
theorem claim4_scalar_precedence (dexF : Nat → Option Setdex) (g : Nat)
    (raw : RawConfig) (sp tn : String) (dex : Setdex)
    (sets : List (String × Preset)) (ts : Preset) (opts : PokemonOptions)
    (htr : raw.trainerPokemon = some (sp, tn))
    (hdex : dexF g = some dex)
    (hsp : dex.lookup sp = some sets)
    (hres : resolveSet sets tn = .ok ts)
    (hok : getPokemonOptionsG dexF g raw = .ok opts) :
    (∀ l, ts.level = some l → l ≠ 0 → opts.level = l) ∧
    (jsTruthyNat ts.level = false → opts.level = jsOrNat raw.level 100) ∧
    (∀ s, ts.ability = some s → s ≠ "" → opts.ability = some s) ∧
    (jsTruthyStr ts.ability = false → opts.ability = raw.ability) ∧
    (∀ s, ts.item = some s → s ≠ "" → opts.item = some s) ∧
    (jsTruthyStr ts.item = false → opts.item = raw.item) ∧
    (∀ s, ts.nature = some s → s ≠ "" → opts.nature = s) ∧
    (jsTruthyStr ts.nature = false → opts.nature = jsOrStr raw.nature "Serious") := by
  simp only [getPokemonOptionsG, htr, hdex, hsp, hres] at hok
  split at hok
  · obtain rfl := (Except.ok.inj hok).symm
    refine ⟨?_, ?_, ?_, ?_, ?_, ?_, ?_, ?_⟩
    · intro l hl hl0
      simp [buildBaseOptionsWith, jsOrNat, hl, hl0]
    · intro h
      cases hlv : ts.level with
      | none => simp [buildBaseOptionsWith, jsOrNat, hlv]
      | some l =>
        rw [hlv] at h
        simp [jsTruthyNat] at h
        simp [buildBaseOptionsWith, jsOrNat, hlv, h]
    · intro s hs hs0
      simp [buildBaseOptionsWith, jsOrOptStr, jsTruthyStr, hs, hs0]
    · intro h
      simp [buildBaseOptionsWith, jsOrOptStr, h]
    · intro s hs hs0
      simp [buildBaseOptionsWith, jsOrOptStr, jsTruthyStr, hs, hs0]
    · intro h
      simp [buildBaseOptionsWith, jsOrOptStr, h]
    · intro s hs hs0
      simp [buildBaseOptionsWith, jsOrStr, hs, hs0]
    · intro h
      cases hn : ts.nature with
      | none => simp [buildBaseOptionsWith, jsOrStr, hn]
      | some s =>
        rw [hn] at h
        simp [jsTruthyStr] at h
        simp [buildBaseOptionsWith, jsOrStr, hn, h]
  · simp at hok

/-- C4 witness: Fisherman Elliot Staryu - the preset defines level 25
(preset wins over the explicit 50), defines no ability and no nature
(the explicit "Illuminate" and "Timid" survive), defines no item (the
absent raw item survives as absent). -/
theorem claim4_witness :
    staryuMergedG.level = 25 ∧ elliotSet.level = some 25 ∧
    rawStaryu.level = some 50 ∧
    staryuMergedG.ability = some "Illuminate" ∧ elliotSet.ability = none ∧
    staryuMergedG.nature = "Timid" ∧ elliotSet.nature = none ∧
    staryuMergedG.item = none := by
  have h := claim4_scalar_precedence sampleDexByGen 8 rawStaryu
    "Staryu" "Fisherman Elliot" sampleDex [("Fisherman Elliot", elliotSet)]
    elliotSet staryuMergedG (by decide) (by decide) (by decide) (by decide) (by decide)
  refine ⟨h.1 25 (by decide) (by decide), by decide, by decide, ?_, by decide, ?_, by decide, ?_⟩
  · rw [h.2.2.2.1 (by decide)]; decide
  · rw [h.2.2.2.2.2.2.2 (by decide)]; decide
  · rw [h.2.2.2.2.2.1 (by decide)]; decide

/-- C6: in both implementations, when the resolved preset defines a move
list the merged moves equal exactly the preset list (any explicitly
supplied list is discarded, with no merging); when the preset defines no
moves the explicitly supplied list (defaulting to empty) is kept. -/
theorem claim6_moves_replaced_wholesale (dexF : Nat → Option Setdex) (g : Nat)
    (raw : RawConfig) (sp tn : String) (dex : Setdex)
    (sets : List (String × Preset)) (ts : Preset) (opts optsC : PokemonOptions)
    (htr : raw.trainerPokemon = some (sp, tn))
    (hdex : dexF g = some dex)
    (hsp : dex.lookup sp = some sets)
    (hres : resolveSet sets tn = .ok ts)
    (hok : getPokemonOptionsG dexF g raw = .ok opts)
    (hokC : getPokemonOptionsC defaultIVs defaultEVs dexF g raw = .ok optsC) :
    (∀ ms, ts.moves = some ms → opts.moves = ms ∧ optsC.moves = ms) ∧
    (ts.moves = none → opts.moves = raw.moves.getD [] ∧
      optsC.moves = raw.moves.getD []) := by
  simp only [getPokemonOptionsG, htr, hdex, hsp, hres] at hok
  simp only [getPokemonOptionsC, htr, hdex, hsp, hres] at hokC
  split at hok
  · obtain rfl := (Except.ok.inj hok).symm
    split at hokC
    · obtain rfl := (Except.ok.inj hokC).symm
      constructor
      · intro ms hms
        simp [buildBaseOptionsWith, hms]
      · intro hms
        simp [buildBaseOptionsWith, hms]
    · contradiction
  · simp at hok

/-- C6 witness: the Fisherman Elliot preset defines moves, so the
explicit list Tackle is discarded in both implementations; the Leader
Norman preset defines none, so the explicit list Body Slam is kept. -/
theorem claim6_witness :
    staryuMergedG.moves = ["Surf", "Recover"] ∧
    staryuMergedC.moves = ["Surf", "Recover"] ∧
    rawStaryu.moves = some ["Tackle"] ∧
    snorlaxMergedG.moves = ["Body Slam"] ∧
    normanSet.moves = none := by
  have h1 := (claim6_moves_replaced_wholesale sampleDexByGen 8 rawStaryu
    "Staryu" "Fisherman Elliot" sampleDex [("Fisherman Elliot", elliotSet)]
    elliotSet staryuMergedG staryuMergedC (by decide) (by decide) (by decide)
    (by decide) (by decide) (by decide)).1 ["Surf", "Recover"] (by decide)
  have h2 := (claim6_moves_replaced_wholesale sampleDexByGen 8 rawSnorlax
    "Snorlax" "Leader Norman" sampleDex [("Leader Norman", normanSet)]
    normanSet snorlaxMergedG snorlaxMergedG (by decide) (by decide) (by decide)
    (by decide) (by decide) (by decide)).2 (by decide)
  refine ⟨h1.1, h1.2, by decide, ?_, by decide⟩
  rw [h2.1]; decide

/-! ## Claims about the trainer-set resolver -/

/-- A character that is not a regex metacharacter is not a backslash and
not a parenthesis. -/
theorem isRegexMeta_not_special (c : Char) (h : isRegexMeta c = false) :
    (c == '\\') = false ∧ (c == '(') = false ∧ (c == ')') = false := by
  refine ⟨?_, ?_, ?_⟩ <;>
  · rw [beq_eq_false_iff_ne]
    intro he
    subst he
    exact absurd h (by decide)

/-- The balance scan skips over any metacharacter-free segment. -/
theorem parenScanBad_append_safe :
    ∀ (l : List Char), l.all (fun c => !isRegexMeta c) = true →
      ∀ (rest : List Char) (d : Nat),
        parenScanBad (l ++ rest) d = parenScanBad rest d := by
  intro l
  induction l with
  | nil => intro _ rest d; rfl
  | cons c cs ih =>
    intro hall rest d
    simp only [List.all_cons, Bool.and_eq_true, Bool.not_eq_true'] at hall
    obtain ⟨hb, hp, hq⟩ := isRegexMeta_not_special c hall.1
    rw [List.cons_append, parenScanBad.eq_def]
    simp only [hb, hp, hq, Bool.false_eq_true, if_false]
    exact ih hall.2 rest d

/-- For a metacharacter-free trainer name the interpolated word-boundary
pattern is accepted by the regex constructor. -/
theorem regexSafe_pattern_valid (t : String) (h : regexSafe t = true) :
    regexInvalid (wbPattern t) = false := by
  unfold regexInvalid wbPattern
  rw [String.data_append, String.data_append,
    show ("\\b" : String).data = ['\\', 'b'] from rfl, List.append_assoc]
  rw [show parenScanBad (['\\', 'b'] ++ (t.data ++ ['\\', 'b'])) 0 =
      parenScanBad (t.data ++ ['\\', 'b']) 0 from rfl]
  unfold regexSafe at h
  rw [parenScanBad_append_safe t.data h ['\\', 'b'] 0]
  rfl

/-- When some entry of the pass matches strongly, the loop returns the
first such entry regardless of any remembered weak candidate. -/
theorem resolveLoop_finds_strong (t : String)
    (hval : regexInvalid (wbPattern t) = false) :
    ∀ (sets : List (String × Preset)) (n : String) (p : Preset) (acc : Option Preset),
      sets.find? (fun e => strongMatch t e.1 e.2.trainer) = some (n, p) →
      resolveLoop t sets acc = .ok (some p) := by
  intro sets
  induction sets with
  | nil => intro n p acc h; simp at h
  | cons hd tl ih =>
    obtain ⟨sn, sp⟩ := hd
    intro n p acc h
    by_cases hs : strongMatch t sn sp.trainer = true
    · rw [List.find?_cons_of_pos (p := fun (e : String × Preset) => strongMatch t e.1 e.2.trainer) _ hs] at h
      have h2 := Option.some.inj h
      obtain ⟨rfl, rfl⟩ : sn = n ∧ sp = p :=
        ⟨congrArg Prod.fst h2, congrArg Prod.snd h2⟩
      simp [resolveLoop, hval, hs]
    · rw [List.find?_cons_of_neg (p := fun (e : String × Preset) => strongMatch t e.1 e.2.trainer) _ hs] at h
      rw [resolveLoop.eq_def]
      simp only [hval, Bool.false_eq_true, if_false, hs, ite_false]
      exact ih n p _ h

/-- When no entry of the pass matches strongly, the loop returns the
remembered candidate, or else the first weak (first-word) match. -/
theorem resolveLoop_no_strong (t : String)
    (hval : regexInvalid (wbPattern t) = false) :
    ∀ (sets : List (String × Preset)) (acc : Option Preset),
      (∀ e ∈ sets, strongMatch t e.1 e.2.trainer = false) →
      resolveLoop t sets acc =
        .ok (match acc with
             | some p => some p
             | none =>
               (sets.find? (fun e => firstWord e.1 == firstWord t)).map (fun e => e.2)) := by
  intro sets
  induction sets with
  | nil => intro acc _; cases acc <;> simp [resolveLoop]
  | cons hd tl ih =>
    obtain ⟨sn, sp⟩ := hd
    intro acc h
    have hs : strongMatch t sn sp.trainer = false := h (sn, sp) (by simp)
    have htl : ∀ e ∈ tl, strongMatch t e.1 e.2.trainer = false :=
      fun e he => h e (by simp [he])
    cases acc with
    | some p0 =>
      rw [resolveLoop.eq_def]
      simp only [hval, Bool.false_eq_true, if_false, hs,
        Option.isNone_some, Bool.false_and, ite_false]
      exact ih (some p0) htl
    | none =>
      by_cases hw : (firstWord sn == firstWord t) = true
      · rw [resolveLoop.eq_def]
        simp only [hval, Bool.false_eq_true, if_false, hs,
          Option.isNone_none, Bool.true_and, hw, ite_true]
        rw [ih (some sp) htl,
          List.find?_cons_of_pos (p := fun (e : String × Preset) => firstWord e.1 == firstWord t) _ hw]
        rfl
      · rw [resolveLoop.eq_def]
        simp only [hval, Bool.false_eq_true, if_false, hs,
          Option.isNone_none, Bool.true_and, hw, ite_false]
        rw [ih none htl,
          List.find?_cons_of_neg (p := fun (e : String × Preset) => firstWord e.1 == firstWord t) _ hw]

/-- C2: for a metacharacter-free trainer name, if some preset of the
species matches strongly (name or truthy trainer label contains the
trainer name as a whole word, case-insensitively), resolveOne returns
the first strongly matching preset in declaration order, even when a
weak first-token match occurs earlier in the pass; and when no preset in
the whole pass matches strongly, the first weak candidate (first preset
whose first space-delimited name token equals the trainer name's first
token) is returned. -/
theorem claim2_resolver_priority (t : String) (sets : List (String × Preset))
    (n : String) (p : Preset) (hsafe : regexSafe t = true) :
    (sets.find? (fun e => strongMatch t e.1 e.2.trainer) = some (n, p) →
      resolveSet sets t = .ok p) ∧
    ((∀ e ∈ sets, strongMatch t e.1 e.2.trainer = false) →
      sets.find? (fun e => firstWord e.1 == firstWord t) = some (n, p) →
      resolveSet sets t = .ok p) := by
  have hval := regexSafe_pattern_valid t hsafe
  constructor
  · intro h
    unfold resolveSet
    rw [resolveLoop_finds_strong t hval sets n p none h]
  · intro hns hw
    unfold resolveSet
    rw [resolveLoop_no_strong t hval sets none hns]
    simp [hw]

/-- C2 witness: with trainer name "Guitarist Anna", the first preset
"Guitarist Trio" is only a weak first-token match; the later preset
"Rematch Guitarist Anna" matches strongly and wins; with the strong
preset removed, the weak candidate is returned. -/
theorem claim2_witness :
    resolveSet annaSets "Guitarist Anna" = .ok annaSetStrong ∧
    resolveSet annaSetsWeakOnly "Guitarist Anna" = .ok annaSetWeak := by
  constructor
  · exact (claim2_resolver_priority "Guitarist Anna" annaSets
      "Rematch Guitarist Anna" annaSetStrong (by decide)).1 (by decide)
  · exact (claim2_resolver_priority "Guitarist Anna" annaSetsWeakOnly
      "Guitarist Trio" annaSetWeak (by decide)).2 (by decide) (by decide)

end RunBun
